import Mathlib

/-!
Verification of the in-memory keyword search index of the ticketing service
(`app/services/vector_store.py`, class `SimpleVectorStoreService`).

The service keeps `tickets_store`, a Python dict from ticket id to a per-ticket
record of lower-cased searchable strings.  We embed that dict as an association
list `Store` with Python-dict semantics (insertion order preserved; overwrite
keeps the position; deletion removes the entry), scores as exact rationals
(every constant in the code is a small decimal, and all sign/clamp decisions
coincide with IEEE doubles on these values), and Python's substring test and
whitespace tokenisation as structurally recursive functions on character lists.
`initialize` only resets an already-empty store in states reachable from the
constructor, so it is modelled as a no-op and the state is the store alone.
-/

set_option maxRecDepth 100000

namespace VectorStore

/-- A Python value as it can appear in a stored record or in a filter:
`None`, an `int`, or a `str`.  Stored records hold only ints and strings. -/
inductive PyVal where
  | none : PyVal
  | int (n : Int) : PyVal
  | str (s : String) : PyVal
deriving DecidableEq, Repr

/-- A filter value as accepted by `search_tickets`: either a scalar
(`None` meaning the filter entry is skipped) or a Python list of scalars. -/
inductive FilterVal where
  | scalar (v : PyVal) : FilterVal
  | list (vs : List PyVal) : FilterVal
deriving DecidableEq, Repr

/-- The `Ticket` pydantic model, restricted to the fields `vector_store.py`
reads.  Enum-valued fields (`status`, `priority`, `category`) are carried as
their `.value` strings; `created_at`/`updated_at` are carried as the strings
their `isoformat()` call produces. -/
structure Ticket where
  id : Int
  title : String
  description : String
  status : String
  priority : String
  category : String
  assignee : Option String
  reporter : String
  tags : Option (List String)
  resolution_notes : Option String
  created_at : String
  updated_at : Option String
deriving DecidableEq, Repr

/-- The record stored in `tickets_store[ticket.id]` by `add_ticket`
(lines 46-59 of `vector_store.py`): twelve keys, one int and eleven strings. -/
structure StoredDoc where
  ticket_id : Int
  document_text : String
  title : String
  description : String
  status : String
  priority : String
  category : String
  assignee : String
  reporter : String
  created_at : String
  updated_at : String
  tags : String
deriving DecidableEq, Repr

/-- `dict.get(key)` on a stored record: the value under `key`, or `None`
when `key` is not one of the twelve keys written by `add_ticket`. -/
def docGet (d : StoredDoc) (key : String) : PyVal :=
  if key = "ticket_id" then .int d.ticket_id
  else if key = "document_text" then .str d.document_text
  else if key = "title" then .str d.title
  else if key = "description" then .str d.description
  else if key = "status" then .str d.status
  else if key = "priority" then .str d.priority
  else if key = "category" then .str d.category
  else if key = "assignee" then .str d.assignee
  else if key = "reporter" then .str d.reporter
  else if key = "created_at" then .str d.created_at
  else if key = "updated_at" then .str d.updated_at
  else if key = "tags" then .str d.tags
  else .none

/-- The twelve keys present in every stored record. -/
def storedKeys : List String :=
  ["ticket_id", "document_text", "title", "description", "status", "priority",
   "category", "assignee", "reporter", "created_at", "updated_at", "tags"]

/-- Character-level test that `n` is a leading segment of `h`
(helper for the substring test). -/
def preList : List Char → List Char → Bool
  | [], _ => true
  | _ :: _, [] => false
  | a :: n, b :: h => a = b && preList n h

/-- Character-level substring containment, needle first. -/
def subList (n : List Char) : List Char → Bool
  | [] => n.isEmpty
  | b :: h => preList n (b :: h) || subList n h

/-- Python's `needle in hay` on strings: substring containment. -/
def strHasSub (hay needle : String) : Bool :=
  subList needle.data hay.data

/-- Python's `str.lower()`, character by character (ASCII range, which is
all the code's own text uses). -/
def lowerStr (s : String) : String :=
  String.mk (s.data.map Char.toLower)

/-- Python's `str.split()` with no argument: split on runs of whitespace,
discarding empty pieces.  `acc` holds the current token reversed. -/
def wordsAux : List Char → List Char → List String
  | [], acc => if acc.isEmpty then [] else [String.mk acc.reverse]
  | c :: cs, acc =>
    if c.isWhitespace then
      if acc.isEmpty then wordsAux cs []
      else String.mk acc.reverse :: wordsAux cs []
    else wordsAux cs (c :: acc)

/-- Tokenise a string the way `query_lower.split()` does. -/
def pySplit (s : String) : List String :=
  wordsAux s.data []

/-- Python truthiness of an `Optional[str]`: `None` and `""` are falsy. -/
def truthyStr : Option String → Bool
  | Option.none => false
  | Option.some s => !(s = "")

/-- Python truthiness of an `Optional[List[str]]`: `None` and `[]` are falsy. -/
def truthyList : Option (List String) → Bool
  | Option.none => false
  | Option.some l => !(l = [])

/-- `_create_document_text` (lines 200-220): the " | "-joined field dump,
with `Assignee`, `Tags` and `Resolution` parts present only when truthy. -/
def createDocumentText (t : Ticket) : String :=
  let parts := ["Title: " ++ t.title, "Description: " ++ t.description,
    "Status: " ++ t.status, "Priority: " ++ t.priority,
    "Category: " ++ t.category, "Reporter: " ++ t.reporter]
  let parts := if truthyStr t.assignee
    then parts ++ ["Assignee: " ++ t.assignee.getD ""] else parts
  let parts := if truthyList t.tags
    then parts ++ ["Tags: " ++ String.intercalate ", " (t.tags.getD [])] else parts
  let parts := if truthyStr t.resolution_notes
    then parts ++ ["Resolution: " ++ t.resolution_notes.getD ""] else parts
  String.intercalate " | " parts

/-- The record `add_ticket` writes under `ticket.id` (lines 46-59). -/
def mkDoc (t : Ticket) : StoredDoc where
  ticket_id := t.id
  document_text := lowerStr (createDocumentText t)
  title := lowerStr t.title
  description := lowerStr t.description
  status := t.status
  priority := t.priority
  category := t.category
  assignee := t.assignee.getD ""
  reporter := t.reporter
  created_at := t.created_at
  updated_at := t.updated_at.getD ""
  tags := lowerStr (String.intercalate " " (t.tags.getD []))

/-- The in-memory `tickets_store` dict, as an insertion-ordered association
list (Python dicts iterate in insertion order). -/
abbrev Store := List (Int × StoredDoc)

/-- Python `d[k] = v`: overwrite in place if `k` is present, else append. -/
def dictInsert : Store → Int → StoredDoc → Store
  | [], k, v => [(k, v)]
  | p :: rest, k, v =>
    if p.1 = k then (k, v) :: rest else p :: dictInsert rest k v

/-- Python `del d[k]` guarded by `k in d`: drop the entry for `k`. -/
def dictErase (s : Store) (k : Int) : Store :=
  s.filter (fun p => !(p.1 = k))

/-- Python `d.get(k)` on the store: the record of the (unique) entry
carrying key `k`, if any. -/
def dictLookup : Store → Int → Option StoredDoc
  | [], _ => Option.none
  | p :: t, k => if p.1 = k then Option.some p.2 else dictLookup t k

/-- The keys of the store. -/
def storeKeys (s : Store) : List Int :=
  s.map Prod.fst

/-- `add_ticket` (lines 37-66): build the searchable record and store it
under `ticket.id`; returns the new store and the reported success flag. -/
def add_ticket (s : Store) (t : Ticket) : Store × Bool :=
  (dictInsert s t.id (mkDoc t), true)

/-- `update_ticket` (lines 68-78): simply re-add (full overwrite). -/
def update_ticket (s : Store) (t : Ticket) : Store × Bool :=
  add_ticket s t

/-- `remove_ticket` (lines 80-93): delete the entry if present; always
reports success. -/
def remove_ticket (s : Store) (i : Int) : Store × Bool :=
  (dictErase s i, true)

/-- The per-term weight of the scoring loop (lines 144-156): 3.0 for a title
hit, else 2.0 for description, else 2.0 for tags, else 1.0 for the full
document text, else 0. -/
def termWeight (d : StoredDoc) (term : String) : ℚ :=
  if strHasSub d.title term then 3
  else if strHasSub d.description term then 2
  else if strHasSub d.tags term then 2
  else if strHasSub d.document_text term then 1
  else 0

/-- The similarity score of one document (lines 140-165): normalized summed
term weights, plus the exact-phrase bonus (+0.5 title, else +0.3 description). -/
def computeScore (queryLower : String) (queryTerms : List String) (d : StoredDoc) : ℚ :=
  let base : ℚ :=
    if 0 < queryTerms.length then
      (queryTerms.foldl (fun acc t => acc + termWeight d t) 0) / (queryTerms.length * 3)
    else 0
  if strHasSub d.title queryLower then base + 1/2
  else if strHasSub d.description queryLower then base + 3/10
  else base

/-- One filter entry (lines 119-128): a `None` value is skipped; a list
value is a membership test; any other value is an equality test. -/
def passesOne (d : StoredDoc) : String × FilterVal → Bool
  | (k, .scalar v) => if v = .none then true else docGet d k = v
  | (k, .list vs) => vs.contains (docGet d k)

/-- The whole filter dict (lines 117-131): a conjunction over its entries. -/
def passesFilters (d : StoredDoc) (filters : List (String × FilterVal)) : Bool :=
  filters.all (passesOne d)

/-- The unsorted `results` list of `search_tickets` (lines 113-168): one
`(ticket_id, min(score, 1.0))` pair per stored document that passes the
filters and scores strictly above zero, in store iteration order. -/
def candidateResults (s : Store) (query : String)
    (filters : List (String × FilterVal)) : List (Int × ℚ) :=
  s.filterMap (fun p =>
    if passesFilters p.2 filters then
      let sc := computeScore (lowerStr query) (pySplit (lowerStr query)) p.2
      if 0 < sc then Option.some (p.1, min sc 1) else Option.none
    else Option.none)

/-- Insert a pair into a list sorted by score descending, before the first
element it ties with or beats (helper for the stable sort below). -/
def insertByScore (a : Int × ℚ) : List (Int × ℚ) → List (Int × ℚ)
  | [] => [a]
  | b :: l => if b.2 ≤ a.2 then a :: b :: l else b :: insertByScore a l

/-- `results.sort(key=lambda x: x[1], reverse=True)` (line 171): Python's
sort is the stable descending sort by score, and the stable sort is unique
as a function of the input list, so this structural insertion sort computes
exactly it. -/
def sortByScore : List (Int × ℚ) → List (Int × ℚ)
  | [] => []
  | a :: l => insertByScore a (sortByScore l)

/-- `search_tickets` (lines 95-179): score, sort by score descending
(Python's stable sort), truncate to `limit`. -/
def search_tickets (s : Store) (query : String) (limit : Nat)
    (filters : List (String × FilterVal)) : List (Int × ℚ) :=
  (sortByScore (candidateResults s query filters)).take limit

/-- `get_similar_tickets` (lines 181-198): search with the ticket's own
"title description" text and `limit + 1`, drop the ticket's own id,
truncate to `limit`. -/
def get_similar_tickets (s : Store) (t : Ticket) (limit : Nat) : List (Int × ℚ) :=
  let results := search_tickets s (t.title ++ " " ++ t.description) (limit + 1) []
  (results.filter (fun p => !(p.1 = t.id))).take limit

/-- The record returned by `get_collection_stats` (lines 222-235). -/
structure CollectionStats where
  total_documents : Nat
  collection_name : String
  embedding_model : String
deriving DecidableEq, Repr

/-- `get_collection_stats`: document count plus two constant strings. -/
def get_collection_stats (s : Store) : CollectionStats :=
  ⟨s.length, "simple_tickets_store", "simple_text_matching"⟩

/-- `search_tickets` as a method acting on `self`: its result together with
the `tickets_store` field after the call (the body never assigns to it). -/
def search_ticketsM (s : Store) (query : String) (limit : Nat)
    (filters : List (String × FilterVal)) : List (Int × ℚ) × Store :=
  (search_tickets s query limit filters, s)

/-- `get_similar_tickets` as a method acting on `self`. -/
def get_similar_ticketsM (s : Store) (t : Ticket) (limit : Nat) :
    List (Int × ℚ) × Store :=
  (get_similar_tickets s t limit, s)

/-- `get_collection_stats` as a method acting on `self`. -/
def get_collection_statsM (s : Store) : CollectionStats × Store :=
  (get_collection_stats s, s)

/-- A write operation on the store, as issued by ticket lifecycle callers. -/
inductive StoreOp where
  | addT (t : Ticket) : StoreOp
  | updateT (t : Ticket) : StoreOp
  | removeT (i : Int) : StoreOp
deriving Repr

/-- Apply one write operation to the store. -/
def applyOp (s : Store) : StoreOp → Store
  | .addT t => (add_ticket s t).1
  | .updateT t => (update_ticket s t).1
  | .removeT i => (remove_ticket s i).1

/-- Whether an operation is an add or update for the given id
(the only operations that can make the id searchable again). -/
def opTouches : StoreOp → Int → Bool
  | .addT t, i => t.id = i
  | .updateT t, i => t.id = i
  | .removeT _, _ => false

/-- Per-token weight exactly as the claim words it: 3.0 if the token occurs
in the lower-cased title, else 2.0 if in the description, else 2.0 if in the
space-joined tags, else 1.0 if in the full document text, else 0. -/
def specTermWeight (d : StoredDoc) (term : String) : ℚ :=
  if strHasSub d.title term then 3
  else if strHasSub d.description term then 2
  else if strHasSub d.tags term then 2
  else if strHasSub d.document_text term then 1
  else 0

/-- The score exactly as the claim words it: `min(1.0, S/(n*3.0) + B)` where
`n` is the token count of the lower-cased query, `S` the summed per-token
weights, and `B` the phrase bonus (0.5 title, else 0.3 description, else 0). -/
def specScore (q : String) (d : StoredDoc) : ℚ :=
  let terms := pySplit (lowerStr q)
  let n : ℚ := terms.length
  let S : ℚ := (terms.map (specTermWeight d)).sum
  let B : ℚ :=
    if strHasSub d.title (lowerStr q) then 1/2
    else if strHasSub d.description (lowerStr q) then 3/10
    else 0
  min 1 (S / (n * 3) + B)

/-- A filter value that is not `None`: a non-`None` scalar, or a Python
list not containing `None` (the shape claim C8 quantifies over). -/
def filterValOk : FilterVal → Prop
  | .scalar v => v ≠ .none
  | .list vs => PyVal.none ∉ vs

/-- The ticket of the spec's worked example (spec §8, scenario 1). -/
def exTicket : Ticket where
  id := 1
  title := "Server performance issue"
  description := "The server is experiencing slow response times"
  status := "open"
  priority := "high"
  category := "performance"
  assignee := Option.none
  reporter := "alice"
  tags := Option.some ["server", "performance"]
  resolution_notes := Option.none
  created_at := "2024-01-01T00:00:00"
  updated_at := Option.none

/-- A store holding just the worked-example ticket. -/
def exStore : Store := (add_ticket [] exTicket).1

/-- A ticket whose title matches the query "alpha" outright. -/
def cexTicketA : Ticket where
  id := 1
  title := "alpha problem"
  description := "nothing here"
  status := "open"
  priority := "low"
  category := "other"
  assignee := Option.none
  reporter := "bob"
  tags := Option.none
  resolution_notes := Option.none
  created_at := "2024-01-02T00:00:00"
  updated_at := Option.none

/-- A ticket that matches "alpha" only through its reporter inside the full
document text, and that alone carries status "closed". -/
def cexTicketB : Ticket where
  id := 2
  title := "beta issue"
  description := "gamma"
  status := "closed"
  priority := "low"
  category := "other"
  assignee := Option.none
  reporter := "alpha"
  tags := Option.none
  resolution_notes := Option.none
  created_at := "2024-01-03T00:00:00"
  updated_at := Option.none

/-- A two-ticket store on which a filter changes which single result the
limit keeps. -/
def cexStore : Store := (add_ticket (add_ticket [] cexTicketA).1 cexTicketB).1

/-- The ticket removed in the claim C6 witness scenario. -/
def exTicket5 : Ticket where
  id := 5
  title := "printer jam"
  description := "paper stuck"
  status := "open"
  priority := "low"
  category := "hardware"
  assignee := Option.none
  reporter := "carol"
  tags := Option.none
  resolution_notes := Option.none
  created_at := "2024-01-04T00:00:00"
  updated_at := Option.none

/-- A ticket with a fresh id, added after the removal in the claim C6
witness scenario. -/
def exTicket2 : Ticket where
  id := 2
  title := "login failure"
  description := "cannot sign in"
  status := "open"
  priority := "high"
  category := "access"
  assignee := Option.none
  reporter := "dave"
  tags := Option.none
  resolution_notes := Option.none
  created_at := "2024-01-05T00:00:00"
  updated_at := Option.none

/-- Store for the claim C6 witness: the worked-example ticket plus ticket 5. -/
def exStore6 : Store := (add_ticket (add_ticket [] exTicket).1 exTicket5).1

/-- Inserting into the sorted list is a permutation of consing. -/
theorem insertByScore_perm (a : Int × ℚ) (l : List (Int × ℚ)) :
    List.Perm (insertByScore a l) (a :: l) := by
  induction l with
  | nil => exact List.Perm.refl _
  | cons b t ih =>
    rw [insertByScore]
    split
    · exact List.Perm.refl _
    · exact (List.Perm.cons b ih).trans (List.Perm.swap a b t)

/-- The sort is a permutation of its input. -/
theorem sortByScore_perm (l : List (Int × ℚ)) : List.Perm (sortByScore l) l := by
  induction l with
  | nil => exact List.Perm.refl _
  | cons a t ih => exact (insertByScore_perm a (sortByScore t)).trans (ih.cons a)

/-- Inserting preserves the non-increasing-score invariant. -/
theorem insertByScore_pairwise (a : Int × ℚ) {l : List (Int × ℚ)}
    (h : l.Pairwise (fun x y => y.2 ≤ x.2)) :
    (insertByScore a l).Pairwise (fun x y => y.2 ≤ x.2) := by
  induction l with
  | nil => simp [insertByScore]
  | cons b t ih =>
    rw [List.pairwise_cons] at h
    rw [insertByScore]
    split
    · rename_i hba
      rw [List.pairwise_cons]
      refine ⟨?_, List.pairwise_cons.2 h⟩
      intro x hx
      rcases List.mem_cons.1 hx with hx | hx
      · exact hx ▸ hba
      · exact le_trans (h.1 x hx) hba
    · rename_i hba
      rw [List.pairwise_cons]
      refine ⟨?_, ih h.2⟩
      intro x hx
      rcases List.mem_cons.1 ((insertByScore_perm a t).mem_iff.1 hx) with hx | hx
      · exact hx ▸ le_of_lt (lt_of_not_le hba)
      · exact h.1 x hx

/-- The sort output has non-increasing scores. -/
theorem sortByScore_pairwise (l : List (Int × ℚ)) :
    (sortByScore l).Pairwise (fun x y => y.2 ≤ x.2) := by
  induction l with
  | nil => simp [sortByScore]
  | cons a t ih => exact insertByScore_pairwise a ih

/-- Folding the score accumulation is the sum of the mapped weights. -/
theorem foldl_add_weight (w : String → ℚ) (c : ℚ) (l : List String) :
    l.foldl (fun acc t => acc + w t) c = c + (l.map w).sum := by
  induction l generalizing c with
  | nil => simp
  | cons a t ih =>
    rw [List.foldl_cons, ih, List.map_cons, List.sum_cons, add_assoc]

/-- Unpack membership in the unsorted result list: the pair comes from a
stored entry that passed the filters and scored strictly positive, and its
score is the clamped document score. -/
theorem mem_candidateResults_elim {s : Store} {q : String}
    {f : List (String × FilterVal)} {p : Int × ℚ}
    (h : p ∈ candidateResults s q f) :
    ∃ d, (p.1, d) ∈ s ∧ passesFilters d f = true ∧
      0 < computeScore (lowerStr q) (pySplit (lowerStr q)) d ∧
      p.2 = min (computeScore (lowerStr q) (pySplit (lowerStr q)) d) 1 := by
  rw [candidateResults, List.mem_filterMap] at h
  obtain ⟨a, ha, hg⟩ := h
  by_cases hpf : passesFilters a.2 f
  · rw [if_pos hpf] at hg
    by_cases hsc : 0 < computeScore (lowerStr q) (pySplit (lowerStr q)) a.2
    · rw [if_pos hsc] at hg
      obtain rfl := (Option.some_inj.1 hg).symm
      exact ⟨a.2, ha, hpf, hsc, rfl⟩
    · rw [if_neg hsc] at hg
      cases hg
  · rw [if_neg hpf] at hg
    cases hg

/-- Membership in the final search result implies membership in the
unsorted candidate list. -/
theorem mem_search_elim {s : Store} {q : String} {lim : Nat}
    {f : List (String × FilterVal)} {p : Int × ℚ}
    (h : p ∈ search_tickets s q lim f) : p ∈ candidateResults s q f :=
  (sortByScore_perm _).mem_iff.1 (List.take_subset _ _ h)

/-- In a store with distinct keys, an id determines its stored record. -/
theorem store_eq_of_nodup : ∀ {s : Store}, (storeKeys s).Nodup →
    ∀ {k : Int} {d1 d2 : StoredDoc}, (k, d1) ∈ s → (k, d2) ∈ s → d1 = d2 := by
  intro s
  induction s with
  | nil => intro _ k d1 d2 h1; cases h1
  | cons a t ih =>
    intro hnd k d1 d2 h1 h2
    rw [storeKeys, List.map_cons, List.nodup_cons] at hnd
    rcases List.mem_cons.1 h1 with h1 | h1 <;> rcases List.mem_cons.1 h2 with h2 | h2
    · rw [← h1] at h2; exact (Prod.mk.injEq _ _ _ _ ▸ h2.symm).2
    · exact absurd (List.mem_map.2 ⟨(k, d2), h2, rfl⟩) (h1 ▸ hnd.1)
    · exact absurd (List.mem_map.2 ⟨(k, d1), h1, rfl⟩) (h2 ▸ hnd.1)
    · exact ih hnd.2 h1 h2

/-- The clamped document score equals the score formula of the claim,
whenever the query has at least one token. -/
theorem computeScore_min_eq_specScore (q : String) (d : StoredDoc)
    (h : pySplit (lowerStr q) ≠ []) :
    min (computeScore (lowerStr q) (pySplit (lowerStr q)) d) 1 = specScore q d := by
  have hlen : 0 < (pySplit (lowerStr q)).length := List.length_pos.2 h
  have hw : specTermWeight d = termWeight d := rfl
  rw [computeScore, specScore, if_pos hlen, foldl_add_weight, zero_add, hw]
  split
  · rw [min_comm]
  · split
    · rw [min_comm]
    · rw [add_zero, min_comm]

/-- Looking up the key just written finds the new record. -/
theorem dictLookup_insert_self (s : Store) (k : Int) (v : StoredDoc) :
    dictLookup (dictInsert s k v) k = Option.some v := by
  induction s with
  | nil => simp [dictInsert, dictLookup]
  | cons p t ih =>
    rw [dictInsert]
    split
    · rw [dictLookup, if_pos rfl]
    · rename_i hpk
      rw [dictLookup, if_neg hpk]
      exact ih

/-- Writing one key leaves every other lookup unchanged. -/
theorem dictLookup_insert_ne (s : Store) {k j : Int} (v : StoredDoc)
    (h : k ≠ j) : dictLookup (dictInsert s j v) k = dictLookup s k := by
  induction s with
  | nil =>
    simp only [dictInsert, dictLookup]
    rw [if_neg (fun hjk : j = k => h hjk.symm)]
  | cons p t ih =>
    rw [dictInsert]
    split
    · rename_i hpj
      have hjk : ¬(j = k) := fun hjk => h hjk.symm
      have hpk : ¬(p.1 = k) := fun hpk => h (by rw [← hpk, hpj])
      simp only [dictLookup, if_neg hjk, if_neg hpk]
    · by_cases hpk : p.1 = k
      · simp only [dictLookup, if_pos hpk]
      · simp only [dictLookup, if_neg hpk]
        exact ih

/-- Deleting one key leaves every other lookup unchanged. -/
theorem dictLookup_erase_ne (s : Store) {k i : Int} (h : k ≠ i) :
    dictLookup (dictErase s i) k = dictLookup s k := by
  induction s with
  | nil => rfl
  | cons p t ih =>
    rw [dictErase, List.filter_cons]
    by_cases hpi : p.1 = i
    · have hpk : ¬(p.1 = k) := fun hpk => h (by rw [← hpk, hpi])
      rw [if_neg (by simpa using hpi)]
      conv_rhs => rw [dictLookup]
      rw [if_neg hpk, ← dictErase]
      exact ih
    · rw [if_pos (by simpa using hpi)]
      by_cases hpk : p.1 = k
      · simp only [dictLookup, if_pos hpk]
      · simp only [dictLookup, if_neg hpk]
        rw [← dictErase]
        exact ih

/-- Overwriting a key twice with the same record is the same as once. -/
theorem dictInsert_idem (s : Store) (k : Int) (v : StoredDoc) :
    dictInsert (dictInsert s k v) k v = dictInsert s k v := by
  induction s with
  | nil => simp [dictInsert]
  | cons p t ih =>
    rw [dictInsert]
    split
    · rw [dictInsert, if_pos rfl]
    · rw [dictInsert]
      split
      · rename_i hpk hpk2
        exact absurd hpk2 hpk
      · rw [ih]

/-- After deletion the key is gone from the store. -/
theorem keys_erase_self (s : Store) (i : Int) : i ∉ storeKeys (dictErase s i) := by
  intro h
  obtain ⟨p, hp, hpi⟩ := List.mem_map.1 h
  have h2 := (List.mem_filter.1 hp).2
  have h3 : p.1 ≠ i := by simpa using h2
  exact h3 hpi

/-- Writing a different key cannot introduce the absent key. -/
theorem keys_insert_not_mem {s : Store} {i k : Int} (v : StoredDoc)
    (hk : k ≠ i) (h : i ∉ storeKeys s) : i ∉ storeKeys (dictInsert s k v) := by
  induction s with
  | nil => simpa [dictInsert, storeKeys] using fun hik => hk hik.symm
  | cons p t ih =>
    rw [dictInsert]
    rw [storeKeys, List.map_cons, List.mem_cons] at h
    push_neg at h
    split
    · rw [storeKeys, List.map_cons, List.mem_cons]
      rintro (hik | hmem)
      · exact hk hik.symm
      · exact h.2 hmem
    · rw [storeKeys, List.map_cons, List.mem_cons]
      rintro (hip | hmem)
      · exact h.1 hip
      · exact ih h.2 hmem

/-- Deleting any key cannot introduce the absent key. -/
theorem keys_erase_not_mem {s : Store} {i j : Int} (h : i ∉ storeKeys s) :
    i ∉ storeKeys (dictErase s j) := by
  intro hmem
  obtain ⟨p, hp, hpi⟩ := List.mem_map.1 hmem
  exact h (List.mem_map.2 ⟨p, List.mem_of_mem_filter hp, hpi⟩)

/-- A run of operations that never adds or updates the id keeps it absent. -/
theorem keys_foldl_not_mem : ∀ (ops : List StoreOp) {s : Store} {i : Int},
    i ∉ storeKeys s → (∀ op ∈ ops, opTouches op i = false) →
    i ∉ storeKeys (ops.foldl applyOp s) := by
  intro ops
  induction ops with
  | nil => intro s i h _; exact h
  | cons op rest ih =>
    intro s i h hops
    rw [List.foldl_cons]
    refine ih ?_ (fun o ho => hops o (List.mem_cons_of_mem op ho))
    have hop := hops op (List.mem_cons_self op rest)
    cases op with
    | addT t =>
      refine keys_insert_not_mem _ ?_ h
      simpa [opTouches] using hop
    | updateT t =>
      refine keys_insert_not_mem _ ?_ h
      simpa [opTouches] using hop
    | removeT j => exact keys_erase_not_mem h

/-- Every returned id is a key of the store searched. -/
theorem mem_search_key {s : Store} {q : String} {lim : Nat}
    {f : List (String × FilterVal)} {p : Int × ℚ}
    (h : p ∈ search_tickets s q lim f) : p.1 ∈ storeKeys s := by
  obtain ⟨d, hd, -⟩ := mem_candidateResults_elim (mem_search_elim h)
  exact List.mem_map.2 ⟨(p.1, d), hd, rfl⟩

/-- Filtering first, then scoring with no filters, gives the candidate list
of the filtered query. -/
theorem candidateResults_eq_filter (s : Store) (q : String)
    (f : List (String × FilterVal)) :
    candidateResults s q f =
      candidateResults (s.filter (fun p => passesFilters p.2 f)) q [] := by
  induction s with
  | nil => rfl
  | cons p t ih =>
    rw [candidateResults, List.filterMap_cons, List.filter_cons]
    by_cases hpf : passesFilters p.2 f
    · rw [if_pos hpf, if_pos hpf, candidateResults, List.filterMap_cons]
      have hno : passesFilters p.2 [] = true := rfl
      rw [if_pos hno]
      cases hsc : (if 0 < computeScore (lowerStr q) (pySplit (lowerStr q)) p.2 then
          Option.some (p.1, min (computeScore (lowerStr q) (pySplit (lowerStr q)) p.2) 1)
        else Option.none) with
    | none => exact ih
    | some b => exact congrArg (List.cons b) ih
    · rw [if_neg hpf, if_neg (by simpa using hpf)]
      exact ih

/-- The filtered candidate list is a sublist of the unfiltered one. -/
theorem candidateResults_sublist (s : Store) (q : String)
    (f : List (String × FilterVal)) :
    List.Sublist (candidateResults s q f) (candidateResults s q []) := by
  rw [candidateResults_eq_filter s q f]
  exact List.Sublist.filterMap _ (List.filter_sublist s)

/-- The empty needle is a substring of everything, as in Python. -/
theorem subList_nil (h : List Char) : subList [] h = true := by
  cases h with
  | nil => rfl
  | cons b t => rfl

/-- On the empty query every document scores exactly the 0.5 title
phrase bonus. -/
theorem computeScore_empty_query (d : StoredDoc) :
    computeScore (lowerStr "") (pySplit (lowerStr "")) d = 1/2 := by
  have h1 : lowerStr "" = "" := rfl
  have h2 : pySplit (lowerStr "") = [] := rfl
  rw [h2, h1, computeScore, if_pos (show strHasSub d.title "" = true from subList_nil _)]
  rw [if_neg (show ¬(0 < ([] : List String).length) from by simp)]
  norm_num

/-- With the empty query and no filters, the candidate list pairs every
stored id with score 0.5. -/
theorem candidateResults_empty_query (s : Store) :
    candidateResults s "" [] = s.map (fun a => (a.1, 1/2)) := by
  have hg : (fun (p : Int × StoredDoc) =>
      if passesFilters p.2 [] = true then
        let sc := computeScore (lowerStr "") (pySplit (lowerStr "")) p.2
        if 0 < sc then Option.some (p.1, min sc 1) else Option.none
      else Option.none) =
      Option.some ∘ (fun (a : Int × StoredDoc) => (a.1, (1:ℚ)/2)) := by
    funext p
    simp only [computeScore_empty_query]
    rw [if_pos (show passesFilters p.2 [] = true from rfl),
      if_pos (show (0:ℚ) < 1/2 from by norm_num),
      min_eq_left (show (1:ℚ)/2 ≤ 1 from by norm_num)]
    rfl
  rw [candidateResults, hg, List.filterMap_eq_map]

/-- An unrecognized filter key reads as `None` on every stored record. -/
theorem docGet_eq_none (d : StoredDoc) {k : String} (hk : k ∉ storedKeys) :
    docGet d k = PyVal.none := by
  simp only [storedKeys, List.mem_cons, List.not_mem_nil, or_false, not_or] at hk
  obtain ⟨h1, h2, h3, h4, h5, h6, h7, h8, h9, h10, h11, h12⟩ := hk
  rw [docGet, if_neg h1, if_neg h2, if_neg h3, if_neg h4, if_neg h5, if_neg h6,
    if_neg h7, if_neg h8, if_neg h9, if_neg h10, if_neg h11, if_neg h12]

/-- C1: for every query with at least one whitespace-separated token, any
pair `(tid, sc)` returned by `search_tickets` over a well-formed store that
holds the document `d` under `tid` satisfies `sc = specScore q d`, the
claim's formula `min(1.0, S/(n*3.0) + B)`; the witness instantiates this at
the spec's worked example, where the query "server slow" returns the single
ticket with score 5.0/6.0. -/
theorem C1_search_score_formula (s : Store) (q : String) (lim : Nat)
    (f : List (String × FilterVal)) (tid : Int) (sc : ℚ) (d : StoredDoc)
    (hterms : pySplit (lowerStr q) ≠ [])
    (hnd : (storeKeys s).Nodup)
    (hmem : (tid, d) ∈ s)
    (hres : (tid, sc) ∈ search_tickets s q lim f) :
    sc = specScore q d := by
  obtain ⟨d2, hd2, hpf, hpos, heq⟩ := mem_candidateResults_elim (mem_search_elim hres)
  have hdd : d2 = d := store_eq_of_nodup hnd hd2 hmem
  rw [show sc = min (computeScore (lowerStr q) (pySplit (lowerStr q)) d2) 1 from heq,
    hdd, computeScore_min_eq_specScore q d hterms]

/-- Witness for C1 at the worked example of the spec. -/
theorem C1_witness :
    pySplit (lowerStr "server slow") ≠ [] ∧
    (storeKeys exStore).Nodup ∧
    ((1 : Int), mkDoc exTicket) ∈ exStore ∧
    ((1 : Int), (5 : ℚ)/6) ∈ search_tickets exStore "server slow" 10 [] ∧
    (5 : ℚ)/6 = specScore "server slow" (mkDoc exTicket) :=
  ⟨by decide, by decide, by decide,
   of_decide_eq_true (by with_unfolding_all rfl),
   C1_search_score_formula exStore "server slow" 10 [] 1 (5/6) (mkDoc exTicket)
     (by decide) (by decide) (by decide)
     (of_decide_eq_true (by with_unfolding_all rfl))⟩

/-- C2: every pair returned by `search_tickets` has a score strictly
greater than 0 and at most 1, and the stored document behind any returned
pair (in a well-formed store) has strictly positive combined score — so a
document whose combined score is 0 is never included. -/
theorem C2_scores_bounded (s : Store) (q : String) (lim : Nat)
    (f : List (String × FilterVal)) (p : Int × ℚ) (d : StoredDoc)
    (hp : p ∈ search_tickets s q lim f)
    (hnd : (storeKeys s).Nodup) (hd : (p.1, d) ∈ s) :
    (0 < p.2 ∧ p.2 ≤ 1) ∧
    0 < computeScore (lowerStr q) (pySplit (lowerStr q)) d := by
  obtain ⟨d2, hd2, -, hpos, heq⟩ := mem_candidateResults_elim (mem_search_elim hp)
  have hdd : d2 = d := store_eq_of_nodup hnd hd2 hd
  exact ⟨⟨heq ▸ lt_min hpos one_pos, heq ▸ min_le_right _ _⟩, hdd ▸ hpos⟩

/-- Witness for C2 at the worked example. -/
theorem C2_witness :
    ((1 : Int), (5 : ℚ)/6) ∈ search_tickets exStore "server slow" 10 [] ∧
    (storeKeys exStore).Nodup ∧ ((1 : Int), mkDoc exTicket) ∈ exStore ∧
    (((0 : ℚ) < ((1 : Int), (5 : ℚ)/6).2 ∧ ((1 : Int), (5 : ℚ)/6).2 ≤ 1) ∧
      0 < computeScore (lowerStr "server slow") (pySplit (lowerStr "server slow"))
        (mkDoc exTicket)) :=
  ⟨of_decide_eq_true (by with_unfolding_all rfl), by decide, by decide,
   C2_scores_bounded exStore "server slow" 10 [] (1, 5/6) (mkDoc exTicket)
     (of_decide_eq_true (by with_unfolding_all rfl)) (by decide) (by decide)⟩

/-- C4: with any limit of at least one, `search_tickets` returns at most
`limit` pairs, in non-increasing score order. -/
theorem C4_limit_and_order (s : Store) (q : String) (lim : Nat)
    (f : List (String × FilterVal)) (hlim : 1 ≤ lim) :
    (search_tickets s q lim f).length ≤ lim ∧
    (search_tickets s q lim f).Pairwise (fun a b => b.2 ≤ a.2) :=
  ⟨List.length_take_le lim _,
   List.Pairwise.sublist (List.take_sublist lim _) (sortByScore_pairwise _)⟩

/-- Witness for C4 on the two-ticket store with limit 1. -/
theorem C4_witness :
    1 ≤ 1 ∧
    (search_tickets cexStore "alpha" 1 []).length ≤ 1 ∧
    (search_tickets cexStore "alpha" 1 []).Pairwise (fun a b => b.2 ≤ a.2) :=
  ⟨le_refl 1, C4_limit_and_order cexStore "alpha" 1 [] (le_refl 1)⟩

/-- C5: `get_similar_tickets` never returns the ticket's own id, returns at
most `limit` pairs, and literally is the `limit+1` search on the ticket's
"title description" text with the own id dropped and the list truncated. -/
theorem C5_similar_self_excluded (s : Store) (t : Ticket) (lim : Nat)
    (p : Int × ℚ) (hp : p ∈ get_similar_tickets s t lim) :
    p.1 ≠ t.id ∧ (get_similar_tickets s t lim).length ≤ lim ∧
    get_similar_tickets s t lim =
      ((search_tickets s (t.title ++ " " ++ t.description) (lim + 1) []).filter
        (fun r => !(r.1 = t.id))).take lim := by
  refine ⟨?_, List.length_take_le lim _, rfl⟩
  have h2 := (List.mem_filter.1 (List.take_subset _ _ hp)).2
  simpa using h2

/-- Witness for C5: similar tickets of the "alpha problem" ticket inside
the two-ticket store. -/
theorem C5_witness :
    ((2 : Int), (1 : ℚ)/12) ∈ get_similar_tickets cexStore cexTicketA 3 ∧
    ((2 : Int) ≠ cexTicketA.id ∧ (get_similar_tickets cexStore cexTicketA 3).length ≤ 3 ∧
      get_similar_tickets cexStore cexTicketA 3 =
        ((search_tickets cexStore (cexTicketA.title ++ " " ++ cexTicketA.description) (3 + 1)
          []).filter (fun r => !(r.1 = cexTicketA.id))).take 3) :=
  ⟨of_decide_eq_true (by with_unfolding_all rfl),
   C5_similar_self_excluded cexStore cexTicketA 3 (2, 1/12)
     (of_decide_eq_true (by with_unfolding_all rfl))⟩

/-- C3 as amended: every returned pair comes from a stored document that
passes every supplied filter; the filtered result list is never longer than
the unfiltered one; and every filtered result pair appears among the
unfiltered candidates (the unfiltered result before limit truncation).  The
claim's stronger assertion — that the filtered, truncated result list is a
subset of the unfiltered, truncated one — is refuted by the counterexample. -/
theorem C3_filter_narrows_amended (s : Store) (q : String) (lim : Nat)
    (f : List (String × FilterVal)) (p : Int × ℚ)
    (hp : p ∈ search_tickets s q lim f) :
    (∃ d, (p.1, d) ∈ s ∧ passesFilters d f = true) ∧
    (search_tickets s q lim f).length ≤ (search_tickets s q lim []).length ∧
    p ∈ candidateResults s q [] := by
  obtain ⟨d, hd, hpf, -, -⟩ := mem_candidateResults_elim (mem_search_elim hp)
  refine ⟨⟨d, hd, hpf⟩, ?_, (candidateResults_sublist s q f).subset (mem_search_elim hp)⟩
  rw [search_tickets, search_tickets, List.length_take, List.length_take,
    (sortByScore_perm _).length_eq, (sortByScore_perm _).length_eq]
  exact min_le_min (le_refl lim) (candidateResults_sublist s q f).length_le

/-- Counterexample to C3 as stated: on the two-ticket store, with limit 1
and query "alpha", the status-"closed" filter returns the pair (2, 1/3),
which the unfiltered search does not return (it returns ticket 1 instead),
so the filtered result set is not a subset of the unfiltered result set. -/
theorem C3_counterexample :
    ((2 : Int), (1 : ℚ)/3) ∈ search_tickets cexStore "alpha" 1
      [("status", FilterVal.scalar (PyVal.str "closed"))] ∧
    ((2 : Int), (1 : ℚ)/3) ∉ search_tickets cexStore "alpha" 1 [] :=
  ⟨of_decide_eq_true (by with_unfolding_all rfl),
   of_decide_eq_true (by with_unfolding_all rfl)⟩

/-- Witness for C3 at the worked example with a satisfied status filter. -/
theorem C3_witness :
    ((1 : Int), (5 : ℚ)/6) ∈ search_tickets exStore "server slow" 10
      [("status", FilterVal.scalar (PyVal.str "open"))] ∧
    ((∃ d, ((1 : Int), d) ∈ exStore ∧
        passesFilters d [("status", FilterVal.scalar (PyVal.str "open"))] = true) ∧
      (search_tickets exStore "server slow" 10
        [("status", FilterVal.scalar (PyVal.str "open"))]).length ≤
        (search_tickets exStore "server slow" 10 []).length ∧
      ((1 : Int), (5 : ℚ)/6) ∈ candidateResults exStore "server slow" []) :=
  ⟨of_decide_eq_true (by with_unfolding_all rfl),
   C3_filter_narrows_amended exStore "server slow" 10
     [("status", FilterVal.scalar (PyVal.str "open"))] (1, 5/6)
     (of_decide_eq_true (by with_unfolding_all rfl))⟩

/-- C6: `remove_ticket` always reports success; removing an id that is not
indexed is a no-op on the store; and after removing an id, any run of
further operations that never adds or updates that id leaves every
subsequent search result free of it. -/
theorem C6_remove_is_final (s : Store) (i : Int) (ops : List StoreOp)
    (q : String) (lim : Nat) (f : List (String × FilterVal)) (p : Int × ℚ)
    (hops : ∀ op ∈ ops, opTouches op i = false)
    (hp : p ∈ search_tickets (ops.foldl applyOp (remove_ticket s i).1) q lim f) :
    (remove_ticket s i).2 = true ∧
    (i ∉ storeKeys s → (remove_ticket s i).1 = s) ∧
    p.1 ≠ i := by
  refine ⟨rfl, fun hni => ?_, fun hpi => ?_⟩
  · refine List.filter_eq_self.2 (fun a ha => ?_)
    have : a.1 ≠ i := fun hai => hni (hai ▸ List.mem_map.2 ⟨a, ha, rfl⟩)
    simpa using this
  · have hkey := mem_search_key hp
    rw [hpi] at hkey
    exact keys_foldl_not_mem ops (keys_erase_self s i) hops hkey

/-- Witness for C6: remove ticket 5, then add a ticket with id 2; an empty
query then returns ticket 1 and never ticket 5. -/
theorem C6_witness :
    (∀ op ∈ [StoreOp.addT exTicket2], opTouches op 5 = false) ∧
    ((1 : Int), (1 : ℚ)/2) ∈ search_tickets
      ([StoreOp.addT exTicket2].foldl applyOp (remove_ticket exStore6 5).1) "" 10 [] ∧
    ((remove_ticket exStore6 5).2 = true ∧
      ((5 : Int) ∉ storeKeys exStore6 → (remove_ticket exStore6 5).1 = exStore6) ∧
      (1 : Int) ≠ 5) :=
  ⟨by decide,
   of_decide_eq_true (by with_unfolding_all rfl),
   C6_remove_is_final exStore6 5 [StoreOp.addT exTicket2] "" 10 [] (1, 1/2)
     (by decide) (of_decide_eq_true (by with_unfolding_all rfl))⟩

/-- C7: updating twice with identical ticket data is the same as updating
once — the store (hence the stored document and the stats count) is
unchanged by the second call — and update is definitionally add, an
overwrite of the entry under `ticket.id`. -/
theorem C7_update_idempotent (s : Store) (t : Ticket) :
    (update_ticket (update_ticket s t).1 t).1 = (update_ticket s t).1 ∧
    (get_collection_stats (update_ticket (update_ticket s t).1 t).1).total_documents =
      (get_collection_stats (update_ticket s t).1).total_documents ∧
    update_ticket s t = add_ticket s t ∧
    dictLookup (update_ticket s t).1 t.id = Option.some (mkDoc t) := by
  have h1 : (update_ticket (update_ticket s t).1 t).1 = (update_ticket s t).1 :=
    dictInsert_idem s t.id (mkDoc t)
  exact ⟨h1, by rw [h1], rfl, dictLookup_insert_self s t.id (mkDoc t)⟩

/-- C8: a filter entry whose key is not among the stored attribute keys and
whose value is a non-`None` scalar or a `None`-free list makes the search
return the empty list, whatever the query. -/
theorem C8_unknown_filter_key (s : Store) (q : String) (lim : Nat)
    (f : List (String × FilterVal)) (k : String) (fv : FilterVal)
    (hmem : (k, fv) ∈ f) (hk : k ∉ storedKeys) (hfv : filterValOk fv) :
    search_tickets s q lim f = [] := by
  have hone : ∀ d : StoredDoc, passesOne d (k, fv) = false := by
    intro d
    cases fv with
    | scalar v =>
      rw [passesOne, if_neg (hfv : v ≠ PyVal.none)]
      exact decide_eq_false
        (fun h => hfv (((docGet_eq_none d hk).symm.trans h).symm))
    | list vs =>
      rw [passesOne, docGet_eq_none d hk]
      simpa [List.elem_iff] using (hfv : PyVal.none ∉ vs)
  have hall : ∀ d : StoredDoc, passesFilters d f = false := by
    intro d
    rw [passesFilters]
    exact List.all_eq_false.2 ⟨(k, fv), hmem, by rw [hone d]; exact Bool.false_ne_true⟩
  have hcand : candidateResults s q f = [] := by
    rw [candidateResults]
    refine List.filterMap_eq_nil_iff.2 (fun a _ => ?_)
    rw [if_neg (by rw [hall a.2]; exact Bool.false_ne_true)]
  rw [search_tickets, hcand, show sortByScore [] = [] from rfl, List.take_nil]

/-- Witness for C8: a filter on the unknown key "nothing" empties the
search over the worked-example store. -/
theorem C8_witness :
    ("nothing", FilterVal.scalar (PyVal.str "x")) ∈
      [("nothing", FilterVal.scalar (PyVal.str "x"))] ∧
    "nothing" ∉ storedKeys ∧
    filterValOk (FilterVal.scalar (PyVal.str "x")) ∧
    search_tickets exStore "performance" 10
      [("nothing", FilterVal.scalar (PyVal.str "x"))] = [] :=
  ⟨by decide, by decide, fun h => PyVal.noConfusion h,
   C8_unknown_filter_key exStore "performance" 10
     [("nothing", FilterVal.scalar (PyVal.str "x"))] "nothing"
     (FilterVal.scalar (PyVal.str "x")) (by decide) (by decide)
     (fun h => PyVal.noConfusion h)⟩

/-- C9: with the empty query and no filters, every indexed document scores
exactly 0.5 (term score 0 plus the always-matching title phrase bonus), and
the result has min(limit, store size) pairs, each carrying score 0.5. -/
theorem C9_empty_query (s : Store) (lim : Nat) (p : Int × ℚ)
    (hp : p ∈ search_tickets s "" lim []) :
    (search_tickets s "" lim []).length = min lim s.length ∧ p.2 = 1/2 := by
  constructor
  · rw [search_tickets, List.length_take, (sortByScore_perm _).length_eq,
      candidateResults_empty_query, List.length_map]
  · have h2 := mem_search_elim hp
    rw [candidateResults_empty_query] at h2
    obtain ⟨a, -, hpa⟩ := List.mem_map.1 h2
    rw [← hpa]

/-- Witness for C9 on the worked-example store with limit 3. -/
theorem C9_witness :
    ((1 : Int), (1 : ℚ)/2) ∈ search_tickets exStore "" 3 [] ∧
    ((search_tickets exStore "" 3 []).length = min 3 exStore.length ∧
      ((1 : Int), (1 : ℚ)/2).2 = 1/2) :=
  ⟨of_decide_eq_true (by with_unfolding_all rfl),
   C9_empty_query exStore 3 (1, 1/2) (of_decide_eq_true (by with_unfolding_all rfl))⟩

/-- C10: the three read operations return the store they were given, and
each write operation leaves the lookup of every key other than the one it
names unchanged. -/
theorem C10_frame (s : Store) (t : Ticket) (i k : Int) (q : String)
    (lim : Nat) (f : List (String × FilterVal))
    (hkt : k ≠ t.id) (hki : k ≠ i) :
    (search_ticketsM s q lim f).2 = s ∧
    (get_similar_ticketsM s t lim).2 = s ∧
    (get_collection_statsM s).2 = s ∧
    dictLookup (add_ticket s t).1 k = dictLookup s k ∧
    dictLookup (update_ticket s t).1 k = dictLookup s k ∧
    dictLookup (remove_ticket s i).1 k = dictLookup s k :=
  ⟨rfl, rfl, rfl, dictLookup_insert_ne s (mkDoc t) hkt,
   dictLookup_insert_ne s (mkDoc t) hkt, dictLookup_erase_ne s hki⟩

/-- Witness for C10 at concrete inputs: key 7 differs from the written id 1
and the removed id 5. -/
theorem C10_witness :
    (7 : Int) ≠ exTicket.id ∧ (7 : Int) ≠ (5 : Int) ∧
    ((search_ticketsM exStore6 "x" 10 []).2 = exStore6 ∧
      (get_similar_ticketsM exStore6 exTicket 10).2 = exStore6 ∧
      (get_collection_statsM exStore6).2 = exStore6 ∧
      dictLookup (add_ticket exStore6 exTicket).1 7 = dictLookup exStore6 7 ∧
      dictLookup (update_ticket exStore6 exTicket).1 7 = dictLookup exStore6 7 ∧
      dictLookup (remove_ticket exStore6 5).1 7 = dictLookup exStore6 7) :=
  ⟨by decide, by decide,
   C10_frame exStore6 exTicket 5 7 "x" 10 [] (by decide) (by decide)⟩

end VectorStore
